import Mathlib

/-!
Shallow embedding of `src/packages/scraper/scraper/scrape.py` (a resumable
archive crawler) together with the retry machinery it configures from the
`tenacity` library.  Pure data is translated directly; the external effects
(HTTP, file system, wall-clock time) are passed in as explicit oracles, and
each loop iteration records the persistence calls it performs as a list of
`Effect`s so that statements about "what was saved when" can be made.

String splitting is implemented structurally over character lists (all the
separators the source uses — `#`, `?`, `&`, `=`, `+` — are single
characters), so every definition evaluates inside the kernel.
-/

/-! ## URL parsing: the fragment of `urllib.parse` the source uses -/

/-- Python `s.split(sep)` for a one-character separator, over char lists. -/
def splitCharAux (sep : Char) : List Char → List Char → List (List Char)
  | [], acc => [acc.reverse]
  | c :: rest, acc =>
    if c = sep then acc.reverse :: splitCharAux sep rest []
    else splitCharAux sep rest (c :: acc)

/-- Python `s.split(sep)` for a one-character separator. -/
def splitChar (sep : Char) (s : String) : List String :=
  (splitCharAux sep s.toList []).map String.mk

/-- Python `s.split(sep, 1)` for a one-character separator: the part before
the first occurrence, and the remainder (`none` when absent). -/
def splitFirstAux (sep : Char) : List Char → List Char → List Char × Option (List Char)
  | [], acc => (acc.reverse, none)
  | c :: rest, acc =>
    if c = sep then (acc.reverse, some rest) else splitFirstAux sep rest (c :: acc)

/-- Python `s.split(sep, 1)` for a one-character separator. -/
def splitFirst (sep : Char) (s : String) : String × Option String :=
  let (pre, post) := splitFirstAux sep s.toList []
  (String.mk pre, post.map String.mk)

/-- Python `s.replace(a, b)` for one-character `a`, `b`. -/
def replaceChar (a b : Char) (s : String) : String :=
  String.mk (s.toList.map fun c => if c = a then b else c)

/-- Value of a hex digit, as in percent-decoding. -/
def hexDigitVal (c : Char) : Option Nat :=
  if '0' ≤ c ∧ c ≤ '9' then some (c.toNat - 48)
  else if 'a' ≤ c ∧ c ≤ 'f' then some (c.toNat - 87)
  else if 'A' ≤ c ∧ c ≤ 'F' then some (c.toNat - 55)
  else none

/-- Percent-decoding of `%XX` escapes, carried out over code points (exact
for ASCII payloads, which is all this crawler's query strings hold);
malformed escapes are left as-is, as `urllib.parse.unquote` does. -/
def percentDecodeAux : List Char → List Char
  | [] => []
  | '%' :: a :: b :: rest =>
    match hexDigitVal a, hexDigitVal b with
    | some hi, some lo => Char.ofNat (16 * hi + lo) :: percentDecodeAux rest
    | _, _ => '%' :: percentDecodeAux (a :: b :: rest)
  | c :: rest => c :: percentDecodeAux rest

/-- `urllib.parse.unquote_plus` as used by `parse_qsl`: `+` becomes a space,
then percent-escapes are decoded. -/
def unquote_plus (s : String) : String :=
  String.mk (percentDecodeAux (replaceChar '+' ' ' s).toList)

/-- `urllib.parse.parse_qsl` with its defaults (`keep_blank_values=False`,
`strict_parsing=False`, separator `&`): empty chunks, chunks without `=` and
chunks with an empty value are skipped; names and values are unquoted. -/
def parse_qsl (qs : String) : List (String × String) :=
  (splitChar '&' qs).filterMap fun name_value =>
    if name_value = "" then none
    else
      match splitFirst '=' name_value with
      | (_, none) => none
      | (name, some value) =>
        if value = "" then none
        else some (unquote_plus name, unquote_plus value)

/-- Group `parse_qsl`'s pairs into a name → list-of-values dictionary,
preserving insertion order, as `urllib.parse.parse_qs` does. -/
def addQsValue : List (String × List String) → String → String → List (String × List String)
  | [], n, v => [(n, [v])]
  | (k, vs) :: rest, n, v =>
    if k = n then (k, vs ++ [v]) :: rest else (k, vs) :: addQsValue rest n v

/-- `urllib.parse.parse_qs` with default options. -/
def parse_qs (qs : String) : List (String × List String) :=
  (parse_qsl qs).foldl (fun d nv => addQsValue d nv.1 nv.2) []

/-- `urllib.parse.urlparse(url).query`: the fragment is split off at the
first `#`, then the query is everything after the first `?` of what
remains. -/
def urlparse_query (url : String) : String :=
  let withoutFragment := (splitFirst '#' url).1
  match (splitFirst '?' withoutFragment).2 with
  | some q => q
  | none => ""

/-- `extract_unique_part` (scrape.py lines 216-220): the first value of the
`m` query parameter, or `""` when the URL has none. -/
def extract_unique_part (url : String) : String :=
  let query_params := parse_qs (urlparse_query url)
  match query_params.find? (fun p => p.1 = "m") with
  | some p => p.2.headD ""
  | none => ""

/-! ## Data model: `Post`, `Stats`, `CrawlState` (scrape.py lines 56-83) -/

/-- `Post` dataclass. -/
structure Post where
  id : String
  title : String
  content : String
  entry_date : String
  content_html : String
  year : String
deriving Repr, DecidableEq

/-- One entry of `Stats.articles`: the dict `{"date": ..., "title": ...}`. -/
structure DateTitle where
  date : String
  title : String
deriving Repr, DecidableEq

/-- `Stats` dataclass.  `articles_per_year` is a Python dict, modeled as an
association list in insertion order. -/
structure Stats where
  articles_per_year : List (String × Nat) := []
  total_articles : Nat := 0
  articles : List DateTitle := []
deriving Repr, DecidableEq

/-- `CrawlState` dataclass.  `crawled_urls` is a Python set of visited keys,
modeled as a duplicate-free list (insertion via `setAdd`). -/
structure CrawlState where
  urls_to_crawl : List String := []
  crawled_urls : List String := []
  errors_404 : List String := []
deriving Repr, DecidableEq

/-- Python `set.add`: idempotent insertion. -/
def setAdd (s : List String) (x : String) : List String :=
  if x ∈ s then s else s ++ [x]

/-! ## Stats aggregation (scrape.py lines 258-266) -/

/-- The dict update `if year not in d: d[year] = 0; d[year] += 1` on the
association-list model: bump the entry in place, or append `(year, 1)`. -/
def incrYear : List (String × Nat) → String → List (String × Nat)
  | [], year => [(year, 1)]
  | (k, v) :: rest, year =>
    if k = year then (k, v + 1) :: rest else (k, v) :: incrYear rest year

/-- The body of the `for post in posts` loop of `update_stats`: bump
`articles_per_year[post.year]` and append `{date, title}` to `articles`. -/
def statsAddPost (s : Stats) (post : Post) : Stats :=
  { s with
    articles_per_year := incrYear s.articles_per_year post.year
    articles := s.articles ++ [⟨post.entry_date, post.title⟩] }

/-- `update_stats`: the per-post loop, then `total_articles += len(posts)`. -/
def update_stats (stats : Stats) (posts : List Post) : Stats :=
  let s := posts.foldl statsAddPost stats
  { s with total_articles := s.total_articles + posts.length }

/-! ## `datetime.fromisoformat` and `save_dates_titles` (lines 269-281) -/

/-- The fields of a parsed datetime that `strftime("%Y-%m-%d %H:%M")`
consumes. -/
structure PyDateTime where
  year : Nat
  month : Nat
  day : Nat
  hour : Nat
  minute : Nat
deriving Repr, DecidableEq

def digitVal (c : Char) : Nat := c.toNat - 48

def allDigits (cs : List Char) : Bool := cs.all (·.isDigit)

def daysInMonth (y m : Nat) : Nat :=
  if m = 2 then (if (y % 4 = 0 ∧ y % 100 ≠ 0) ∨ y % 400 = 0 then 29 else 28)
  else if m = 4 ∨ m = 6 ∨ m = 9 ∨ m = 11 then 30
  else 31

/-- Optional `:SS[.ffffff]` tail of a time-of-day. -/
def parseSecondsPart : List Char → Bool
  | [] => true
  | ':' :: s1 :: s2 :: rest =>
    s1.isDigit && s2.isDigit && decide (10 * digitVal s1 + digitVal s2 < 60) &&
      (match rest with
       | [] => true
       | '.' :: frac => decide (frac ≠ []) && allDigits frac
       | _ => false)
  | _ => false

/-- `HH[:MM[:SS[.ffffff]]]`, returning hour and minute. -/
def parseTimeOfDay : List Char → Option (Nat × Nat)
  | h1 :: h2 :: rest =>
    if h1.isDigit && h2.isDigit then
      let hour := 10 * digitVal h1 + digitVal h2
      if hour < 24 then
        match rest with
        | [] => some (hour, 0)
        | ':' :: m1 :: m2 :: rest2 =>
          if m1.isDigit && m2.isDigit then
            let minute := 10 * digitVal m1 + digitVal m2
            if minute < 60 && parseSecondsPart rest2 then some (hour, minute) else none
          else none
        | _ => none
      else none
    else none
  | _ => none

/-- `datetime.fromisoformat`, modeled for the shapes this crawler's dates can
take: `YYYY-MM-DD`, optionally followed by a one-character separator and a
time of day (no UTC offsets).  `none` models the `ValueError` raise; in
particular the empty string is rejected. -/
def fromisoformat (s : String) : Option PyDateTime :=
  match s.toList with
  | y1 :: y2 :: y3 :: y4 :: '-' :: m1 :: m2 :: '-' :: d1 :: d2 :: rest =>
    if allDigits [y1, y2, y3, y4, m1, m2, d1, d2] then
      let year := 1000 * digitVal y1 + 100 * digitVal y2 + 10 * digitVal y3 + digitVal y4
      let month := 10 * digitVal m1 + digitVal m2
      let day := 10 * digitVal d1 + digitVal d2
      if 1 ≤ month ∧ month ≤ 12 ∧ 1 ≤ day ∧ day ≤ daysInMonth year month then
        match rest with
        | [] => some ⟨year, month, day, 0, 0⟩
        | _sep :: timePart =>
          match parseTimeOfDay timePart with
          | some (h, mi) => some ⟨year, month, day, h, mi⟩
          | none => none
      else none
    else none
  | _ => none

def pad2 (n : Nat) : String := if n < 10 then "0" ++ toString n else toString n

def pad4 (n : Nat) : String :=
  if n < 10 then "000" ++ toString n
  else if n < 100 then "00" ++ toString n
  else if n < 1000 then "0" ++ toString n
  else toString n

/-- `date_time.strftime("%Y-%m-%d %H:%M")`. -/
def strftime_Ymd_HM (dt : PyDateTime) : String :=
  pad4 dt.year ++ "-" ++ pad2 dt.month ++ "-" ++ pad2 dt.day ++ " " ++
    pad2 dt.hour ++ ":" ++ pad2 dt.minute

/-- The article loop of `save_dates_titles`: one formatted line per record,
aborting (the `ValueError` of `fromisoformat`) at the first invalid date. -/
def datesTitlesLines : List DateTitle → Except Unit (List String)
  | [] => .ok []
  | article :: rest =>
    match fromisoformat article.date with
    | none => .error ()
    | some dt =>
      match datesTitlesLines rest with
      | .ok ls => .ok ((strftime_Ymd_HM dt ++ " " ++ article.title) :: ls)
      | .error e => .error e

/-- `save_dates_titles`: the per-year summary lines, a blank line, then one
`<timestamp> <title>` line per record; `Except.error` models the exception
escaping when some record's date fails `fromisoformat`. -/
def save_dates_titles (stats : Stats) : Except Unit (List String) :=
  match datesTitlesLines stats.articles with
  | .ok ls =>
    .ok ((stats.articles_per_year.map fun yc => yc.1 ++ ", " ++ toString yc.2 ++ " posts")
          ++ [""] ++ ls)
  | .error e => .error e

/-! ## Document extraction (scrape.py lines 143-182, 206-213)

The extraction functions consume a `BeautifulSoup` parse; the crawl claims
only depend on which tags are present, so a fetched document is modeled as
the relevant tag structure already located by the selectors the source
uses. -/

/-- The `<time class="entry-date">` tag inside `<footer class="entry-meta">`:
its optional `datetime` attribute and its stripped text. -/
structure TimeTag where
  datetimeAttr : Option String
  text : String
deriving Repr, DecidableEq

/-- One `<article id=...>` under `<div id="content">`, with the pieces the
source's selectors look up. -/
structure ArticleTag where
  id : String
  bookmarkText : Option String
  entryContentHtml : Option String
  footerTime : Option TimeTag
deriving Repr, DecidableEq

/-- A fetched document: `truthy` is `bool(soup)` (false for a contentless
parse, the `if not soup` guard), `contentDiv` the `<div id="content">` with
its articles when present, `archivesAside` the hrefs inside
`<aside id="flexo-archives-3">` when that aside is present. -/
structure Doc where
  truthy : Bool
  contentDiv : Option (List ArticleTag)
  archivesAside : Option (List String)
deriving Repr, DecidableEq

/-- `extract_posts`: one `Post` per `<article>`; the title falls back to
`"No Title"`, the body to `""`; the date is the `datetime` attribute (or the
tag text) of the footer time tag, `""` when footer or time tag is missing;
`year = date[:4] if date else "unknown"`.  The `markdownify` collaborator is
passed in as `md`. -/
def extract_posts (md : String → String) (doc : Doc) : List Post :=
  match doc.contentDiv with
  | none => []
  | some articles =>
    articles.map fun article =>
      let title := match article.bookmarkText with
        | some t => t
        | none => "No Title"
      let content_html := match article.entryContentHtml with
        | some b => b
        | none => ""
      let content_md := md content_html
      let date := match article.footerTime with
        | some tt =>
          match tt.datetimeAttr with
          | some dv => dv
          | none => tt.text
        | none => ""
      let year := if date = "" then "unknown" else String.mk (date.toList.take 4)
      ⟨article.id, title, content_md, date, content_html, year⟩

/-- `extract_archive_links`: the hrefs of the archives aside, `[]` when the
section is absent. -/
def extract_archive_links (doc : Doc) : List String :=
  match doc.archivesAside with
  | none => []
  | some links => links

/-! ## Frontier operations and one crawl-loop iteration (lines 291-344) -/

/-- The followup-link enqueue of `crawl_site` (lines 332-338), the spec's
`enqueueIfNew`: append `link` unless its unique part is in `crawled_urls` or
is an element of the `urls_to_crawl` list.  Note both membership tests are on
`unique_link_part`: the second compares the *key* against the full URL
strings of the pending list. -/
def enqueueIfNew (state : CrawlState) (link : String) : CrawlState :=
  let unique_link_part := extract_unique_part link
  if unique_link_part ∉ state.crawled_urls ∧ unique_link_part ∉ state.urls_to_crawl then
    { state with urls_to_crawl := state.urls_to_crawl ++ [link] }
  else state

/-- The observable side effects of one loop iteration, in program order. -/
inductive Effect
  | fetch (url : String)
  | saveToFiles (postId : String)
  | saveState
  | saveStats
  | saveDatesTitles
  | saveErrors
deriving Repr, DecidableEq

/-- Outcome of the `fetch_page(current_url)` call as the loop sees it:
a parsed document, `None` (the 404 case), or a raised exception. -/
inductive FetchOutcome
  | soup (doc : Doc)
  | notFound
  | raised
deriving Repr, DecidableEq

/-- Result of one loop iteration: the mutated state and stats, the effects
performed, and whether an exception escaped the iteration (terminating
`crawl_site`). -/
structure StepResult where
  state : CrawlState
  stats : Stats
  effects : List Effect
  raised : Bool
deriving Repr, DecidableEq

/-- One iteration of the `while state.urls_to_crawl` loop of `crawl_site`
(lines 298-344).  `md` is the markdownify collaborator and `fetch` the
outcome of `fetch_page` per URL.  On an empty frontier the loop exits
(identity result). -/
def crawl_site_step (md : String → String) (fetch : String → FetchOutcome)
    (state : CrawlState) (stats : Stats) : StepResult :=
  match state.urls_to_crawl with
  | [] => ⟨state, stats, [], false⟩
  | current_url :: rest =>
    let unique_part := extract_unique_part current_url
    if unique_part ∈ state.crawled_urls then
      ⟨{ state with urls_to_crawl := rest }, stats, [], false⟩
    else
      match fetch current_url with
      | .notFound =>
        ⟨{ state with urls_to_crawl := rest, errors_404 := state.errors_404 ++ [current_url] },
          stats, [.fetch current_url, .saveErrors], false⟩
      | .raised =>
        let st := { state with urls_to_crawl := rest ++ [current_url] }
        match save_dates_titles stats with
        | .ok _ =>
          ⟨st, stats, [.fetch current_url, .saveState, .saveStats, .saveDatesTitles, .saveErrors],
            false⟩
        | .error _ => ⟨st, stats, [.fetch current_url, .saveState, .saveStats], true⟩
      | .soup doc =>
        if doc.truthy = false then
          ⟨{ state with urls_to_crawl := rest }, stats, [.fetch current_url], false⟩
        else
          let posts := extract_posts md doc
          let effects0 := Effect.fetch current_url :: posts.map (fun p => .saveToFiles p.id)
          let stats' := update_stats stats posts
          let st1 := (extract_archive_links doc).foldl enqueueIfNew
            { state with urls_to_crawl := rest }
          let st2 := { st1 with crawled_urls := setAdd st1.crawled_urls unique_part }
          match save_dates_titles stats' with
          | .ok _ =>
            ⟨st2, stats', effects0 ++ [.saveState, .saveStats, .saveDatesTitles, .saveErrors],
              false⟩
          | .error _ => ⟨st2, stats', effects0 ++ [.saveState, .saveStats], true⟩

/-- Final state of a fueled run of the crawl loop (for whole-run claims). -/
structure RunResult where
  state : CrawlState
  stats : Stats
  raised : Bool
deriving Repr, DecidableEq

/-- The `while` loop of `crawl_site`, iterated with fuel: stops on an empty
frontier, on a raised exception, or when the fuel runs out. -/
def crawl_site_loop (md : String → String) (fetch : String → FetchOutcome) :
    Nat → CrawlState → Stats → RunResult
  | 0, state, stats => ⟨state, stats, false⟩
  | fuel + 1, state, stats =>
    match state.urls_to_crawl with
    | [] => ⟨state, stats, false⟩
    | _ :: _ =>
      let r := crawl_site_step md fetch state stats
      if r.raised then ⟨r.state, r.stats, true⟩
      else crawl_site_loop md fetch fuel r.state r.stats

/-! ## `fetch_page` and its tenacity retry policy (scrape.py lines 86-131)

The `@retry` decorator is configured with `stop=stop_after_attempt(5)`,
`wait=wait_exponential(multiplier=5, min=30, max=300)`,
`before_sleep=wait_if_retry_after`, and the retry predicate
`retry_if_exception_type(requests.RequestException) &
retry_if_not_exception_type(requests.HTTPError)`.  Wall-clock time (for the
HTTP-date form of `Retry-After`) is an oracle `dateDiff`; HTTP attempts are
an oracle indexed by attempt number. -/

/-- A `requests.Response` as far as this code inspects it. -/
structure PyResponse where
  status : Nat
  retryAfter : Option String
deriving Repr, DecidableEq

/-- The exceptions this code distinguishes.  `requests.HTTPError` carries its
response; `ConnectionError`/`Timeout` (both `requests.RequestException`)
carry an optional one; `urllib3.MaxRetryError` is not a
`RequestException`. -/
inductive PyExc
  | httpError (resp : PyResponse)
  | connectionError (resp : Option PyResponse)
  | timeout (resp : Option PyResponse)
  | maxRetryError
  | otherExc
deriving Repr, DecidableEq

/-- `isinstance(e, requests.RequestException)`. -/
def isRequestException : PyExc → Bool
  | .httpError _ => true
  | .connectionError _ => true
  | .timeout _ => true
  | .maxRetryError => false
  | .otherExc => false

/-- `isinstance(e, requests.HTTPError)`. -/
def isHTTPError : PyExc → Bool
  | .httpError _ => true
  | _ => false

/-- `e.response`. -/
def excResponse : PyExc → Option PyResponse
  | .httpError r => some r
  | .connectionError r => r
  | .timeout r => r
  | .maxRetryError => none
  | .otherExc => none

/-- The decorator's retry predicate: retry exactly the `RequestException`s
that are not `HTTPError`s. -/
def retryPredicate (e : PyExc) : Bool :=
  isRequestException e && !isHTTPError e

/-- tenacity `wait_exponential(multiplier=5, min=30, max=300)` evaluated at
`attempt_number = n`: `max(30, min(5 * 2^(n-1), 300))`. -/
def wait_exponential_5_30_300 (n : Nat) : Nat :=
  max 30 (min (5 * 2 ^ (n - 1)) 300)

def digitsToNat : List Char → Nat → Nat
  | [], acc => acc
  | c :: rest, acc => digitsToNat rest (10 * acc + digitVal c)

/-- Python `int(s)` on a string: surrounding spaces stripped, an optional
sign, then a non-empty digit run; `none` models the `ValueError`. -/
def int_of_string (s : String) : Option Int :=
  let cs := ((s.toList.dropWhile (· = ' ')).reverse.dropWhile (· = ' ')).reverse
  let digits : List Char → Option Int := fun ds =>
    if ds ≠ [] ∧ allDigits ds then some (digitsToNat ds 0 : Nat) else none
  match cs with
  | '-' :: rest => (digits rest).map (fun n => -n)
  | '+' :: rest => digits rest
  | rest => digits rest

/-- `wait_if_retry_after`, returning the seconds it itself sleeps (0 when it
does not sleep).  It inspects the failed attempt's exception; for a
`RequestException` with a response carrying a non-empty `Retry-After` it
sleeps `int(value)`, falling back to an HTTP-date diffed against current
time (the `dateDiff` oracle). -/
def wait_if_retry_after (dateDiff : String → Int) (e : PyExc) : Int :=
  if isRequestException e then
    match excResponse e with
    | some resp =>
      match resp.retryAfter with
      | some ra =>
        if ra ≠ "" then
          match int_of_string ra with
          | some n => n
          | none => dateDiff ra
        else 0
      | none => 0
    | none => 0
  else 0

/-- What one `requests.get(url, timeout=60)` call does. -/
inductive HttpAttempt
  | response (resp : PyResponse)
  | connError (resp : Option PyResponse)
  | timeoutErr (resp : Option PyResponse)
  | maxRetryErr
deriving Repr, DecidableEq

/-- Result of one execution of the body of `fetch_page`. -/
inductive AttemptResult
  | okSoup
  | none404
  | raise (e : PyExc)
deriving Repr, DecidableEq

/-- `response.raise_for_status()`: raises `HTTPError` for 4xx/5xx. -/
def raise_for_status (resp : PyResponse) : Option PyExc :=
  if 400 ≤ resp.status ∧ resp.status < 600 then some (.httpError resp) else none

/-- The body of `fetch_page` (lines 118-130): a 404 `HTTPError` is caught and
turned into `None`; every other `HTTPError`, `RequestException` and
`MaxRetryError` is re-raised. -/
def fetch_page_body : HttpAttempt → AttemptResult
  | .response resp =>
    match raise_for_status resp with
    | some e => if resp.status = 404 then .none404 else .raise e
    | none => .okSoup
  | .connError r => .raise (.connectionError r)
  | .timeoutErr r => .raise (.timeout r)
  | .maxRetryErr => .raise (.maxRetryError)

/-- Final outcome of the decorated `fetch_page`. -/
inductive FetchFinal
  | ok
  | notFound
  | raisedExc (e : PyExc)
  | retryError (e : PyExc)
deriving Repr, DecidableEq

/-- A whole run of the decorated `fetch_page`: how many attempts were made,
and for each sleep between attempts the pair
(seconds slept by `wait_if_retry_after`, seconds slept by tenacity's
exponential wait) — tenacity runs `before_sleep` and then sleeps the
computed wait as well. -/
structure FetchPageRun where
  attemptsMade : Nat
  waits : List (Int × Nat)
  outcome : FetchFinal
deriving Repr, DecidableEq

/-- The tenacity driver: attempt `n`; on a retryable exception with retries
remaining (`stop_after_attempt(5)` leaves `5 - n` retries after attempt `n`,
so `fetch_page_run` starts with 4), run `before_sleep` (which may itself
sleep), sleep the exponential wait, and go again; a non-retryable exception
propagates as itself; exhaustion raises tenacity's `RetryError` wrapping the
last exception. -/
def fetchPageAux (dateDiff : String → Int) (oracle : Nat → HttpAttempt) :
    Nat → Nat → List (Int × Nat) → FetchPageRun
  | n, retriesLeft, waits =>
    match fetch_page_body (oracle n) with
    | .okSoup => ⟨n, waits, .ok⟩
    | .none404 => ⟨n, waits, .notFound⟩
    | .raise e =>
      if retryPredicate e then
        match retriesLeft with
        | 0 => ⟨n, waits, .retryError e⟩
        | left + 1 =>
          fetchPageAux dateDiff oracle (n + 1) left
            (waits ++ [(wait_if_retry_after dateDiff e, wait_exponential_5_30_300 n)])
      else ⟨n, waits, .raisedExc e⟩

/-- The decorated `fetch_page` run from attempt 1 with
`stop_after_attempt(5)`. -/
def fetch_page_run (dateDiff : String → Int) (oracle : Nat → HttpAttempt) : FetchPageRun :=
  fetchPageAux dateDiff oracle 1 4 []

/-! ## Derived predicates and concrete fixtures -/

/-- `sum(d.values())` for the association-list model of a dict. -/
def sumYears (l : List (String × Nat)) : Nat := (l.map Prod.snd).sum

/-- `d.get(y, 0)` for the association-list model of a dict. -/
def yearCount (l : List (String × Nat)) (y : String) : Nat :=
  (((l.find? (fun p => p.1 = y)).map Prod.snd).getD 0)

/-- The spec's CrawlState invariant: `pending` never contains a URL whose
VisitedKey is already in `visited`. -/
def PendingFresh (state : CrawlState) : Prop :=
  ∀ u ∈ state.urls_to_crawl, extract_unique_part u ∉ state.crawled_urls

instance decPendingFresh (state : CrawlState) : Decidable (PendingFresh state) :=
  List.decidableBAll _ state.urls_to_crawl

/-- Whether a URL carries an `m` query parameter at all. -/
def hasQueryParamM (url : String) : Bool :=
  ((parse_qs (urlparse_query url)).find? (fun p => p.1 = "m")).isSome

def c3x : String := "http://x/?m=1"

def c3a : String := "http://a/?m=2"

/-- A truthy page with no posts whose archives aside links to `c3x`. -/
def c3doc : Doc := ⟨true, none, some [c3x]⟩

/-- Fetch oracle: `c3a` succeeds with `c3doc`; everything else is a 404. -/
def c3fetch : String → FetchOutcome := fun u => if u = c3a then .soup c3doc else .notFound

/-! ## Sanity evaluations -/

example : extract_unique_part "http://a.example/?m=202001" = "202001" := by decide
example : extract_unique_part "http://a.example/path" = "" := by decide
example : extract_unique_part "https://web.archive.org/web/2024/http://r.com/?m=201905#x" = "201905" := by
  decide
example : extract_unique_part "http://a/?x=1&m=7&m=8" = "7" := by decide
example : extract_unique_part "http://a/?m=" = "" := by decide
example : extract_unique_part "http://a/?%6d=z" = "z" := by decide

example : fromisoformat "" = none := by decide
example : fromisoformat "2019-03-01" = some ⟨2019, 3, 1, 0, 0⟩ := by decide
example : fromisoformat "2019-03-01T10:30:00" = some ⟨2019, 3, 1, 10, 30⟩ := by decide
example : fromisoformat "2019-02-29" = none := by decide
example : save_dates_titles ⟨[("2019", 1)], 1, [⟨"2019-03-01", "T"⟩]⟩
    = .ok ["2019, 1 posts", "", "2019-03-01 00:00 T"] := rfl
example : save_dates_titles ⟨[("unknown", 1)], 1, [⟨"", "T"⟩]⟩ = .error () := rfl

example :
    fetch_page_run (fun _ => 0) (fun _ => .timeoutErr none)
      = ⟨5, [(0, 30), (0, 30), (0, 30), (0, 40)], .retryError (.timeout none)⟩ := by decide
example :
    fetch_page_run (fun _ => 0) (fun _ => .response ⟨500, none⟩)
      = ⟨1, [], .raisedExc (.httpError ⟨500, none⟩)⟩ := by decide
example :
    fetch_page_run (fun _ => 0) (fun _ => .response ⟨404, none⟩)
      = ⟨1, [], .notFound⟩ := by decide
example :
    fetch_page_run (fun _ => 0)
      (fun n => if n = 1 then .connError (some ⟨503, some "120"⟩) else .response ⟨200, none⟩)
      = ⟨2, [(120, 30)], .ok⟩ := by decide


/-! ## Helper lemmas -/

theorem sumYears_incrYear (l : List (String × Nat)) (y : String) :
    sumYears (incrYear l y) = sumYears l + 1 := by
  induction l with
  | nil => simp [incrYear, sumYears]
  | cons p rest ih =>
    obtain ⟨k, v⟩ := p
    by_cases h : k = y
    · simp [incrYear, h, sumYears]
      omega
    · simp only [incrYear, if_neg h]
      simp only [sumYears, List.map_cons, List.sum_cons] at *
      omega

theorem yearCount_incrYear_le (l : List (String × Nat)) (y y' : String) :
    yearCount l y' ≤ yearCount (incrYear l y) y' := by
  induction l with
  | nil => simp [incrYear, yearCount]
  | cons p rest ih =>
    obtain ⟨k, v⟩ := p
    by_cases h : k = y
    · subst h
      by_cases h' : k = y'
      · subst h'
        simp [incrYear, yearCount, List.find?]
      · simp [incrYear, yearCount, List.find?, h']
    · by_cases h' : k = y'
      · subst h'
        simp [incrYear, if_neg h, yearCount, List.find?]
      · simp only [incrYear, if_neg h]
        simp only [yearCount, List.find?, h', decide_False] at *
        exact ih

theorem foldl_statsAddPost_spec (posts : List Post) (stats : Stats) :
    (posts.foldl statsAddPost stats).total_articles = stats.total_articles ∧
    (posts.foldl statsAddPost stats).articles
      = stats.articles ++ posts.map (fun p => ⟨p.entry_date, p.title⟩) ∧
    sumYears (posts.foldl statsAddPost stats).articles_per_year
      = sumYears stats.articles_per_year + posts.length ∧
    ∀ y, yearCount stats.articles_per_year y
      ≤ yearCount (posts.foldl statsAddPost stats).articles_per_year y := by
  induction posts generalizing stats with
  | nil => simp
  | cons p rest ih =>
    obtain ⟨h1, h2, h3, h4⟩ := ih (statsAddPost stats p)
    refine ⟨?_, ?_, ?_, ?_⟩
    · simpa [statsAddPost] using h1
    · simpa [statsAddPost] using h2
    · rw [List.foldl_cons, h3]
      simp [statsAddPost, sumYears_incrYear]
      omega
    · intro y
      refine le_trans ?_ (h4 y)
      simp [statsAddPost, yearCount_incrYear_le]

theorem enqueueIfNew_crawled_urls (state : CrawlState) (link : String) :
    (enqueueIfNew state link).crawled_urls = state.crawled_urls := by
  simp only [enqueueIfNew]
  split <;> rfl

theorem enqueueIfNew_errors_404 (state : CrawlState) (link : String) :
    (enqueueIfNew state link).errors_404 = state.errors_404 := by
  simp only [enqueueIfNew]
  split <;> rfl

theorem foldl_enqueueIfNew_crawled_urls (links : List String) (state : CrawlState) :
    (links.foldl enqueueIfNew state).crawled_urls = state.crawled_urls := by
  induction links generalizing state with
  | nil => rfl
  | cons l rest ih => rw [List.foldl_cons, ih, enqueueIfNew_crawled_urls]

theorem crawl_site_step_nil {md : String → String} {fetch : String → FetchOutcome}
    {state : CrawlState} {stats : Stats} (hq : state.urls_to_crawl = []) :
    crawl_site_step md fetch state stats = ⟨state, stats, [], false⟩ := by
  simp only [crawl_site_step, hq]

theorem crawl_site_step_visited {md : String → String} {fetch : String → FetchOutcome}
    {state : CrawlState} {stats : Stats} {current rest}
    (hq : state.urls_to_crawl = current :: rest)
    (hv : extract_unique_part current ∈ state.crawled_urls) :
    crawl_site_step md fetch state stats
      = ⟨{ state with urls_to_crawl := rest }, stats, [], false⟩ := by
  simp only [crawl_site_step, hq]
  rw [if_pos hv]

theorem crawl_site_step_notFound {md : String → String} {fetch : String → FetchOutcome}
    {state : CrawlState} {stats : Stats} {current rest}
    (hq : state.urls_to_crawl = current :: rest)
    (hnv : extract_unique_part current ∉ state.crawled_urls)
    (hf : fetch current = .notFound) :
    crawl_site_step md fetch state stats
      = ⟨{ state with urls_to_crawl := rest, errors_404 := state.errors_404 ++ [current] },
          stats, [.fetch current, .saveErrors], false⟩ := by
  simp only [crawl_site_step, hq]
  rw [if_neg hnv, hf]

theorem crawl_site_step_raised_ok {md : String → String} {fetch : String → FetchOutcome}
    {state : CrawlState} {stats : Stats} {current rest} {lines}
    (hq : state.urls_to_crawl = current :: rest)
    (hnv : extract_unique_part current ∉ state.crawled_urls)
    (hf : fetch current = .raised)
    (hok : save_dates_titles stats = .ok lines) :
    crawl_site_step md fetch state stats
      = ⟨{ state with urls_to_crawl := rest ++ [current] }, stats,
          [.fetch current, .saveState, .saveStats, .saveDatesTitles, .saveErrors], false⟩ := by
  simp only [crawl_site_step, hq]
  rw [if_neg hnv, hf, hok]

theorem crawl_site_step_raised_err {md : String → String} {fetch : String → FetchOutcome}
    {state : CrawlState} {stats : Stats} {current rest}
    (hq : state.urls_to_crawl = current :: rest)
    (hnv : extract_unique_part current ∉ state.crawled_urls)
    (hf : fetch current = .raised)
    (herr : save_dates_titles stats = .error ()) :
    crawl_site_step md fetch state stats
      = ⟨{ state with urls_to_crawl := rest ++ [current] }, stats,
          [.fetch current, .saveState, .saveStats], true⟩ := by
  simp only [crawl_site_step, hq]
  rw [if_neg hnv, hf, herr]

theorem crawl_site_step_soup_falsy {md : String → String} {fetch : String → FetchOutcome}
    {state : CrawlState} {stats : Stats} {current rest} {doc}
    (hq : state.urls_to_crawl = current :: rest)
    (hnv : extract_unique_part current ∉ state.crawled_urls)
    (hf : fetch current = .soup doc)
    (ht : doc.truthy = false) :
    crawl_site_step md fetch state stats
      = ⟨{ state with urls_to_crawl := rest }, stats, [.fetch current], false⟩ := by
  simp only [crawl_site_step, hq]
  rw [if_neg hnv, hf]
  simp [ht]

theorem crawl_site_step_soup_ok {md : String → String} {fetch : String → FetchOutcome}
    {state : CrawlState} {stats : Stats} {current rest} {doc} {lines}
    (hq : state.urls_to_crawl = current :: rest)
    (hnv : extract_unique_part current ∉ state.crawled_urls)
    (hf : fetch current = .soup doc)
    (ht : doc.truthy = true)
    (hok : save_dates_titles (update_stats stats (extract_posts md doc)) = .ok lines) :
    crawl_site_step md fetch state stats
      = ⟨{ (extract_archive_links doc).foldl enqueueIfNew { state with urls_to_crawl := rest } with
            crawled_urls :=
              setAdd ((extract_archive_links doc).foldl enqueueIfNew
                  { state with urls_to_crawl := rest }).crawled_urls
                (extract_unique_part current) },
          update_stats stats (extract_posts md doc),
          Effect.fetch current :: (extract_posts md doc).map (fun p => .saveToFiles p.id)
            ++ [.saveState, .saveStats, .saveDatesTitles, .saveErrors],
          false⟩ := by
  simp only [crawl_site_step, hq]
  rw [if_neg hnv, hf]
  simp only [ht, Bool.true_eq_false, if_false]
  rw [hok]

theorem crawl_site_step_soup_err {md : String → String} {fetch : String → FetchOutcome}
    {state : CrawlState} {stats : Stats} {current rest} {doc}
    (hq : state.urls_to_crawl = current :: rest)
    (hnv : extract_unique_part current ∉ state.crawled_urls)
    (hf : fetch current = .soup doc)
    (ht : doc.truthy = true)
    (herr : save_dates_titles (update_stats stats (extract_posts md doc)) = .error ()) :
    crawl_site_step md fetch state stats
      = ⟨{ (extract_archive_links doc).foldl enqueueIfNew { state with urls_to_crawl := rest } with
            crawled_urls :=
              setAdd ((extract_archive_links doc).foldl enqueueIfNew
                  { state with urls_to_crawl := rest }).crawled_urls
                (extract_unique_part current) },
          update_stats stats (extract_posts md doc),
          Effect.fetch current :: (extract_posts md doc).map (fun p => .saveToFiles p.id)
            ++ [.saveState, .saveStats],
          true⟩ := by
  simp only [crawl_site_step, hq]
  rw [if_neg hnv, hf]
  simp only [ht, Bool.true_eq_false, if_false]
  rw [herr]

theorem fetchPageAux_attempts_ge (d : String → Int) (o : Nat → HttpAttempt) :
    ∀ (rl n : Nat) (w : List (Int × Nat)), n ≤ (fetchPageAux d o n rl w).attemptsMade := by
  intro rl
  induction rl with
  | zero =>
    intro n w
    unfold fetchPageAux
    split
    · exact Nat.le_refl n
    · exact Nat.le_refl n
    · split
      · exact Nat.le_refl n
      · exact Nat.le_refl n
  | succ left ih =>
    intro n w
    unfold fetchPageAux
    split
    · exact Nat.le_refl n
    · exact Nat.le_refl n
    · split
      · exact Nat.le_trans (Nat.le_succ n) (ih (n + 1) _)
      · exact Nat.le_refl n

theorem fetchPageAux_spec (d : String → Int) (o : Nat → HttpAttempt) :
    ∀ (rl n : Nat) (acc : List (Int × Nat)),
      ∃ t : List (Int × Nat),
        (fetchPageAux d o n rl acc).waits = acc ++ t ∧
        t.length ≤ rl ∧
        (fetchPageAux d o n rl acc).attemptsMade = n + t.length ∧
        t.map Prod.snd
          = (List.range t.length).map (fun k => wait_exponential_5_30_300 (n + k)) := by
  intro rl
  induction rl with
  | zero =>
    intro n acc
    refine ⟨[], ?_⟩
    unfold fetchPageAux
    split
    · simp
    · simp
    · split
      · simp
      · simp
  | succ left ih =>
    intro n acc
    unfold fetchPageAux
    split
    · exact ⟨[], by simp⟩
    · exact ⟨[], by simp⟩
    · rename_i e heq
      split
      · obtain ⟨t, h1, h2, h3, h4⟩ :=
          ih (n + 1) (acc ++ [(wait_if_retry_after d e, wait_exponential_5_30_300 n)])
        refine ⟨(wait_if_retry_after d e, wait_exponential_5_30_300 n) :: t, ?_, ?_, ?_, ?_⟩
        · rw [h1]
          simp
        · simpa using Nat.succ_le_succ h2
        · rw [h3, List.length_cons]
          omega
        · rw [List.map_cons, h4, List.length_cons, List.range_succ_eq_map]
          simp only [List.map_cons, List.map_map, Function.comp]
          have harg : ∀ k : Nat, n + 1 + k = n + (k + 1) := by omega
          simp [harg]
      · exact ⟨[], by simp⟩

theorem datesTitlesLines_error_of_invalid {l : List DateTitle}
    (h : ∃ a ∈ l, fromisoformat a.date = none) :
    datesTitlesLines l = .error () := by
  induction l with
  | nil => simp at h
  | cons a rest ih =>
    obtain ⟨b, hb, hnone⟩ := h
    rcases List.mem_cons.mp hb with rfl | hbrest
    · simp [datesTitlesLines, hnone]
    · have hrest := ih ⟨b, hbrest, hnone⟩
      unfold datesTitlesLines
      rw [hrest]
      cases hfa : fromisoformat a.date <;> rfl

theorem save_dates_titles_error_of_invalid {stats : Stats}
    (h : ∃ a ∈ stats.articles, fromisoformat a.date = none) :
    save_dates_titles stats = .error () := by
  unfold save_dates_titles
  rw [datesTitlesLines_error_of_invalid h]

theorem fetchPageAux_ok_step {d : String → Int} {o : Nat → HttpAttempt} {n rl : Nat}
    {acc : List (Int × Nat)} (hb : fetch_page_body (o n) = .okSoup) :
    fetchPageAux d o n rl acc = ⟨n, acc, .ok⟩ := by
  conv_lhs => unfold fetchPageAux
  rw [hb]

theorem fetchPageAux_nonretry_step {d : String → Int} {o : Nat → HttpAttempt} {n rl : Nat}
    {acc : List (Int × Nat)} {e : PyExc} (hb : fetch_page_body (o n) = .raise e)
    (hr : retryPredicate e = false) :
    fetchPageAux d o n rl acc = ⟨n, acc, .raisedExc e⟩ := by
  conv_lhs => unfold fetchPageAux
  simp only [hb, hr]
  simp

theorem fetchPageAux_retry_step {d : String → Int} {o : Nat → HttpAttempt} {n left : Nat}
    {acc : List (Int × Nat)} {e : PyExc} (hb : fetch_page_body (o n) = .raise e)
    (hr : retryPredicate e = true) :
    fetchPageAux d o n (left + 1) acc
      = fetchPageAux d o (n + 1) left
          (acc ++ [(wait_if_retry_after d e, wait_exponential_5_30_300 n)]) := by
  conv_lhs => unfold fetchPageAux
  simp only [hb, hr]
  simp

theorem enqueueIfNew_noop {state : CrawlState} {url : String}
    (h : extract_unique_part url ∈ state.crawled_urls ∨
      extract_unique_part url ∈ state.urls_to_crawl) :
    enqueueIfNew state url = state := by
  have hcond : ¬(extract_unique_part url ∉ state.crawled_urls ∧
      extract_unique_part url ∉ state.urls_to_crawl) := by tauto
  simp only [enqueueIfNew]
  rw [if_neg hcond]

/-- C1 (amended): the enqueue step is a no-op on `pending` when the URL's
VisitedKey is already in `visited`, or when the key *string itself* occurs
verbatim as an element of `pending`; otherwise it appends the URL.  For a
key already in `visited`, arbitrarily many repeated calls leave the state
unchanged.  (The original "no-op when some entry already in `pending`
resolves to that same VisitedKey" is refuted by `C1_counterexample`: the
code tests the key against the raw URL strings of `pending`, not against
their keys.) -/
theorem C1_enqueueIfNew_characterization (state : CrawlState) (url : String) :
    (extract_unique_part url ∈ state.crawled_urls ∨
        extract_unique_part url ∈ state.urls_to_crawl →
      enqueueIfNew state url = state) ∧
    (extract_unique_part url ∉ state.crawled_urls ∧
        extract_unique_part url ∉ state.urls_to_crawl →
      (enqueueIfNew state url).urls_to_crawl = state.urls_to_crawl ++ [url]) ∧
    (extract_unique_part url ∈ state.crawled_urls →
      ∀ n : Nat, (fun s => enqueueIfNew s url)^[n] state = state) := by
  refine ⟨fun h => enqueueIfNew_noop h, fun h => ?_, fun h n => ?_⟩
  · simp only [enqueueIfNew]
    rw [if_pos h]
  · exact Function.iterate_fixed (enqueueIfNew_noop (Or.inl h)) n

/-- C1 counterexample: the pending entry `http://t/?m=X` resolves to the same
VisitedKey `X` as `http://s/?m=X` and that key is not visited, yet the
enqueue step appends the URL instead of being a no-op. -/
theorem C1_counterexample :
    extract_unique_part "http://t/?m=X" = extract_unique_part "http://s/?m=X" ∧
    (enqueueIfNew ⟨["http://t/?m=X"], [], []⟩ "http://s/?m=X").urls_to_crawl
      = ["http://t/?m=X", "http://s/?m=X"] := by decide

/-- Witness for `C1_enqueueIfNew_characterization` at concrete inputs. -/
theorem C1_witness :
    enqueueIfNew ⟨["u"], ["X"], []⟩ "http://s/?m=X" = ⟨["u"], ["X"], []⟩ ∧
    (enqueueIfNew ⟨[], [], []⟩ "http://s/?m=X").urls_to_crawl = ["http://s/?m=X"] ∧
    (fun s => enqueueIfNew s "http://s/?m=X")^[3] ⟨["u"], ["X"], []⟩ = ⟨["u"], ["X"], []⟩ :=
  ⟨(C1_enqueueIfNew_characterization ⟨["u"], ["X"], []⟩ "http://s/?m=X").1 (Or.inl (by decide)),
   (C1_enqueueIfNew_characterization ⟨[], [], []⟩ "http://s/?m=X").2.1 (by decide),
   (C1_enqueueIfNew_characterization ⟨["u"], ["X"], []⟩ "http://s/?m=X").2.2 (by decide) 3⟩

/-- C8: for every `Stats` satisfying the conservation invariant
(`total_articles` = sum of `articles_per_year` values = length of
`articles`) and every post list, `update_stats` preserves the invariant;
moreover it only appends to `articles` and never decrements a per-year
count. -/
theorem C8_update_stats_conservation (stats : Stats) (posts : List Post)
    (h1 : stats.total_articles = sumYears stats.articles_per_year)
    (h2 : stats.total_articles = stats.articles.length) :
    (update_stats stats posts).total_articles
        = sumYears (update_stats stats posts).articles_per_year ∧
    (update_stats stats posts).total_articles = (update_stats stats posts).articles.length ∧
    (update_stats stats posts).articles
        = stats.articles ++ posts.map (fun p => ⟨p.entry_date, p.title⟩) ∧
    ∀ y, yearCount stats.articles_per_year y
        ≤ yearCount (update_stats stats posts).articles_per_year y := by
  obtain ⟨t1, t2, t3, t4⟩ := foldl_statsAddPost_spec posts stats
  unfold update_stats
  refine ⟨?_, ?_, ?_, fun y => ?_⟩
  · simp only [t1, t3, h1]
  · simp only [t1, t2, h2, List.length_append, List.length_map]
  · simpa using t2
  · simpa using t4 y

/-- Witness for `C8_update_stats_conservation` at a concrete input. -/
theorem C8_witness :
    (update_stats ⟨[("2019", 1)], 1, [⟨"2019-03-01", "a"⟩]⟩
          [⟨"p2", "b", "", "2020-01-02", "", "2020"⟩]).total_articles
        = sumYears (update_stats ⟨[("2019", 1)], 1, [⟨"2019-03-01", "a"⟩]⟩
          [⟨"p2", "b", "", "2020-01-02", "", "2020"⟩]).articles_per_year ∧
    yearCount [("2019", 1)] "2019"
        ≤ yearCount (update_stats ⟨[("2019", 1)], 1, [⟨"2019-03-01", "a"⟩]⟩
          [⟨"p2", "b", "", "2020-01-02", "", "2020"⟩]).articles_per_year "2019" :=
  ⟨(C8_update_stats_conservation ⟨[("2019", 1)], 1, [⟨"2019-03-01", "a"⟩]⟩
      [⟨"p2", "b", "", "2020-01-02", "", "2020"⟩] (by decide) (by decide)).1,
   (C8_update_stats_conservation ⟨[("2019", 1)], 1, [⟨"2019-03-01", "a"⟩]⟩
      [⟨"p2", "b", "", "2020-01-02", "", "2020"⟩] (by decide) (by decide)).2.2.2 "2019"⟩

/-- C2 (amended): in *every* crawl state — the invariant-violating ones
included — a pending head URL whose VisitedKey is already visited is
discarded at pop: the step only removes it, performing no fetch, no effects
and no stats change; consequently, in every state a URL is fetched only
when its key is not yet visited.  The NotFound and FetchError branches
preserve the invariant "`pending` never contains a URL whose VisitedKey is
in `visited`".  (Full preservation by the success branch is refuted by
`C2_counterexample`: marking the popped key visited after the followup
enqueue can leave a same-key URL pending, which the first part then shows
is discarded unprocessed at its pop.) -/
theorem C2_invariant_preservation (md : String → String) (fetch : String → FetchOutcome)
    (state : CrawlState) (stats : Stats) :
    (∀ current rest, state.urls_to_crawl = current :: rest →
      extract_unique_part current ∈ state.crawled_urls →
      crawl_site_step md fetch state stats
        = ⟨{ state with urls_to_crawl := rest }, stats, [], false⟩) ∧
    (∀ u, Effect.fetch u ∈ (crawl_site_step md fetch state stats).effects →
      extract_unique_part u ∉ state.crawled_urls) ∧
    (PendingFresh state →
      ∀ current rest, state.urls_to_crawl = current :: rest →
      (fetch current = .notFound ∨ fetch current = .raised) →
      PendingFresh (crawl_site_step md fetch state stats).state) := by
  refine ⟨fun current rest hq hv => crawl_site_step_visited hq hv, ?_, ?_⟩
  · intro u hu
    cases hq : state.urls_to_crawl with
    | nil =>
      rw [crawl_site_step_nil hq] at hu
      simp at hu
    | cons current rest =>
      by_cases hv : extract_unique_part current ∈ state.crawled_urls
      · rw [crawl_site_step_visited hq hv] at hu
        simp at hu
      · cases hf : fetch current with
        | notFound =>
          rw [crawl_site_step_notFound hq hv hf] at hu
          simp at hu
          subst hu
          exact hv
        | raised =>
          cases hsd : save_dates_titles stats with
          | ok lines =>
            rw [crawl_site_step_raised_ok hq hv hf hsd] at hu
            simp at hu
            subst hu
            exact hv
          | error e =>
            rw [crawl_site_step_raised_err hq hv hf hsd] at hu
            simp at hu
            subst hu
            exact hv
        | soup doc =>
          cases ht : doc.truthy with
          | false =>
            rw [crawl_site_step_soup_falsy hq hv hf ht] at hu
            simp at hu
            subst hu
            exact hv
          | true =>
            cases hsd : save_dates_titles (update_stats stats (extract_posts md doc)) with
            | ok lines =>
              rw [crawl_site_step_soup_ok hq hv hf ht hsd] at hu
              simp at hu
              subst hu
              exact hv
            | error e =>
              rw [crawl_site_step_soup_err hq hv hf ht hsd] at hu
              simp at hu
              subst hu
              exact hv
  · intro hinv current rest hq hdisj
    have hv : extract_unique_part current ∉ state.crawled_urls :=
      hinv current (by rw [hq]; exact List.mem_cons_self _ _)
    rcases hdisj with hf | hf
    · rw [crawl_site_step_notFound hq hv hf]
      intro u hu
      exact hinv u (by rw [hq]; exact List.mem_cons_of_mem _ hu)
    · cases hsd : save_dates_titles stats with
      | ok lines =>
        rw [crawl_site_step_raised_ok hq hv hf hsd]
        intro u hu
        rcases List.mem_append.mp hu with h | h
        · exact hinv u (by rw [hq]; exact List.mem_cons_of_mem _ h)
        · simp at h
          subst h
          exact hv
      | error e =>
        rw [crawl_site_step_raised_err hq hv hf hsd]
        intro u hu
        rcases List.mem_append.mp hu with h | h
        · exact hinv u (by rw [hq]; exact List.mem_cons_of_mem _ h)
        · simp at h
          subst h
          exact hv

/-- C2 counterexample: a state satisfying the invariant from which one
success step (two pending spellings of the same key, no posts, no links)
produces a state violating it: the second spelling stays pending while its
key has just been marked visited. -/
theorem C2_counterexample :
    PendingFresh ⟨["http://s/?m=X", "http://t/?m=X"], [], []⟩ ∧
    ¬ PendingFresh (crawl_site_step id (fun _ => .soup ⟨true, none, none⟩)
        ⟨["http://s/?m=X", "http://t/?m=X"], [], []⟩ ⟨[], 0, []⟩).state := by
  decide

/-- Witness for `C2_invariant_preservation` at concrete inputs: the discard
equation fires at a state that *violates* the invariant (key `X` visited
while a same-key URL is still pending) — no fetch, no effects, stats
untouched — and a NotFound step from a fresh state preserves the
invariant. -/
theorem C2_witness :
    crawl_site_step id (fun _ => .notFound) ⟨["http://t/?m=X"], ["X"], []⟩ ⟨[], 0, []⟩
      = ⟨⟨[], ["X"], []⟩, ⟨[], 0, []⟩, [], false⟩ ∧
    PendingFresh (crawl_site_step id (fun _ => .notFound)
        ⟨["http://s/?m=X"], [], []⟩ ⟨[], 0, []⟩).state :=
  ⟨(C2_invariant_preservation id (fun _ => .notFound)
      ⟨["http://t/?m=X"], ["X"], []⟩ ⟨[], 0, []⟩).1 "http://t/?m=X" [] rfl (by decide),
   (C2_invariant_preservation id (fun _ => .notFound)
      ⟨["http://s/?m=X"], [], []⟩ ⟨[], 0, []⟩).2.2 (by decide)
      "http://s/?m=X" [] rfl (Or.inl rfl)⟩

/-- C3 (amended): in the iteration that pops a URL whose fetch returns
NotFound, the loop does not re-enqueue it, appends it exactly once to
`errors_404`, leaves `visited` unchanged (the key is never marked), and
folds nothing into the stats.  (The whole-run "exactly once" and "never
re-enqueued" parts of the original claim are refuted by
`C3_counterexample`: because the key is never marked visited, the same URL
can be re-discovered as a followup link, re-enqueued, and appended to
`errors_404` again.) -/
theorem C3_notFound_iteration (md : String → String) (fetch : String → FetchOutcome)
    (state : CrawlState) (stats : Stats) (current : String) (rest : List String)
    (hq : state.urls_to_crawl = current :: rest)
    (hnv : extract_unique_part current ∉ state.crawled_urls)
    (hf : fetch current = .notFound) :
    (crawl_site_step md fetch state stats).state.urls_to_crawl = rest ∧
    (crawl_site_step md fetch state stats).state.errors_404
        = state.errors_404 ++ [current] ∧
    (crawl_site_step md fetch state stats).state.crawled_urls = state.crawled_urls ∧
    (crawl_site_step md fetch state stats).stats = stats ∧
    (crawl_site_step md fetch state stats).effects = [.fetch current, .saveErrors] ∧
    (crawl_site_step md fetch state stats).raised = false := by
  rw [crawl_site_step_notFound hq hnv hf]
  exact ⟨rfl, rfl, rfl, rfl, rfl, rfl⟩

/-- C3 counterexample: `c3x` 404s in step 1, is re-discovered from `c3a` and
re-enqueued in step 2, and 404s again in step 3, ending up twice in
`errors_404`. -/
theorem C3_counterexample :
    c3x ∈ (crawl_site_step id c3fetch
        (crawl_site_step id c3fetch ⟨[c3x, c3a], [], []⟩ ⟨[], 0, []⟩).state
        (crawl_site_step id c3fetch ⟨[c3x, c3a], [], []⟩ ⟨[], 0, []⟩).stats).state.urls_to_crawl ∧
    (crawl_site_loop id c3fetch 3 ⟨[c3x, c3a], [], []⟩ ⟨[], 0, []⟩).state.errors_404
      = [c3x, c3x] := by
  decide

/-- Witness for `C3_notFound_iteration` at a concrete input. -/
theorem C3_witness :
    (crawl_site_step id (fun _ => .notFound)
        ⟨["http://x/?m=1"], [], ["http://old/?m=9"]⟩ ⟨[], 0, []⟩).state.errors_404
      = ["http://old/?m=9", "http://x/?m=1"] ∧
    (crawl_site_step id (fun _ => .notFound)
        ⟨["http://x/?m=1"], [], ["http://old/?m=9"]⟩ ⟨[], 0, []⟩).stats = ⟨[], 0, []⟩ :=
  ⟨(C3_notFound_iteration id (fun _ => .notFound)
      ⟨["http://x/?m=1"], [], ["http://old/?m=9"]⟩ ⟨[], 0, []⟩
      "http://x/?m=1" [] rfl (by decide) rfl).2.1,
   (C3_notFound_iteration id (fun _ => .notFound)
      ⟨["http://x/?m=1"], [], ["http://old/?m=9"]⟩ ⟨[], 0, []⟩
      "http://x/?m=1" [] rfl (by decide) rfl).2.2.2.1⟩

/-- C4 (amended): on the NotFound branch the loop mutates `CrawlState` (the
popped entry is gone, `errors_404` grew) but persists only the `errors_404`
text report — `save_state` is *not* called on that branch, nor on the
visited-discard branch (which persists nothing); `save_state` is called on
the FetchError branch and on the success branch. -/
theorem C4_persistence_by_branch (md : String → String) (fetch : String → FetchOutcome)
    (state : CrawlState) (stats : Stats) (current : String) (rest : List String)
    (hq : state.urls_to_crawl = current :: rest) :
    (extract_unique_part current ∉ state.crawled_urls → fetch current = .notFound →
      (crawl_site_step md fetch state stats).effects = [.fetch current, .saveErrors] ∧
      Effect.saveState ∉ (crawl_site_step md fetch state stats).effects) ∧
    (extract_unique_part current ∉ state.crawled_urls → fetch current = .raised →
      Effect.saveState ∈ (crawl_site_step md fetch state stats).effects) ∧
    (∀ doc, extract_unique_part current ∉ state.crawled_urls → fetch current = .soup doc →
      doc.truthy = true →
      Effect.saveState ∈ (crawl_site_step md fetch state stats).effects) ∧
    (extract_unique_part current ∈ state.crawled_urls →
      (crawl_site_step md fetch state stats).effects = []) := by
  refine ⟨fun hnv hf => ?_, fun hnv hf => ?_, fun doc hnv hf ht => ?_, fun hv => ?_⟩
  · rw [crawl_site_step_notFound hq hnv hf]
    exact ⟨rfl, by simp⟩
  · cases hsd : save_dates_titles stats with
    | ok lines =>
      rw [crawl_site_step_raised_ok hq hnv hf hsd]
      simp
    | error e =>
      rw [crawl_site_step_raised_err hq hnv hf hsd]
      simp
  · cases hsd : save_dates_titles (update_stats stats (extract_posts md doc)) with
    | ok lines =>
      rw [crawl_site_step_soup_ok hq hnv hf ht hsd]
      simp
    | error e =>
      rw [crawl_site_step_soup_err hq hnv hf ht hsd]
      simp
  · rw [crawl_site_step_visited hq hv]

/-- C4 counterexample: a NotFound step mutates `CrawlState` yet never calls
`save_state` — the claim that the mutated `CrawlState` is persisted before
continuing (and after every mutation) is false on this path. -/
theorem C4_counterexample :
    (crawl_site_step id (fun _ => .notFound)
        ⟨["http://x/?m=1"], [], []⟩ ⟨[], 0, []⟩).state ≠ ⟨["http://x/?m=1"], [], []⟩ ∧
    Effect.saveState ∉ (crawl_site_step id (fun _ => .notFound)
        ⟨["http://x/?m=1"], [], []⟩ ⟨[], 0, []⟩).effects := by
  decide

/-- Witness for `C4_persistence_by_branch` at a concrete input. -/
theorem C4_witness :
    Effect.saveState ∉ (crawl_site_step id (fun _ => .notFound)
        ⟨["http://x/?m=1"], [], []⟩ ⟨[], 0, []⟩).effects ∧
    Effect.saveState ∈ (crawl_site_step id (fun _ => .raised)
        ⟨["http://x/?m=1"], [], []⟩ ⟨[], 0, []⟩).effects :=
  ⟨((C4_persistence_by_branch id (fun _ => .notFound)
      ⟨["http://x/?m=1"], [], []⟩ ⟨[], 0, []⟩ "http://x/?m=1" [] rfl).1
        (by decide) rfl).2,
   (C4_persistence_by_branch id (fun _ => .raised)
      ⟨["http://x/?m=1"], [], []⟩ ⟨[], 0, []⟩ "http://x/?m=1" [] rfl).2.1
        (by decide) rfl⟩

/-- C5 (amended): connection failures and timeouts are retryable under the
decorator's predicate, but an HTTP error status — 500 included, anything
the 404 branch does not swallow — is *not* retried: being an `HTTPError`
it is excluded by `retry_if_not_exception_type(requests.HTTPError)` and
propagates after the first attempt.  (Refutes the original claim's "any
other HTTP error status ... is retryable"; see `C5_counterexample`.) -/
theorem C5_http_errors_not_retried (d : String → Int) (o : Nat → HttpAttempt) (e : PyExc) :
    (∀ r, retryPredicate (.connectionError r) = true ∧ retryPredicate (.timeout r) = true) ∧
    (fetch_page_body (o 1) = .raise e → isHTTPError e = true →
      fetch_page_run d o = ⟨1, [], .raisedExc e⟩) ∧
    (fetch_page_body (o 1) = .raise e → retryPredicate e = true →
      2 ≤ (fetch_page_run d o).attemptsMade) := by
  refine ⟨fun r => ⟨rfl, rfl⟩, fun hb hh => ?_, fun hb hr => ?_⟩
  · have hfalse : retryPredicate e = false := by
      unfold retryPredicate
      rw [hh]
      simp
    exact fetchPageAux_nonretry_step hb hfalse
  · show 2 ≤ (fetchPageAux d o 1 4 []).attemptsMade
    rw [show (4 : Nat) = 3 + 1 from rfl, fetchPageAux_retry_step hb hr]
    exact fetchPageAux_attempts_ge d o 3 2 _

/-- C5 counterexample: a 500 response raises `HTTPError`, which the retry
predicate rejects — one attempt, no waits, exception propagated, contrary
to the claim that non-404 HTTP errors are re-attempted. -/
theorem C5_counterexample :
    fetch_page_run (fun _ => 0) (fun _ => .response ⟨500, none⟩)
      = ⟨1, [], .raisedExc (.httpError ⟨500, none⟩)⟩ := by decide

/-- Witness for `C5_http_errors_not_retried` at concrete inputs. -/
theorem C5_witness :
    fetch_page_run (fun _ => 0) (fun _ => .response ⟨503, none⟩)
        = ⟨1, [], .raisedExc (.httpError ⟨503, none⟩)⟩ ∧
    2 ≤ (fetch_page_run (fun _ => 0) (fun _ => .timeoutErr none)).attemptsMade :=
  ⟨(C5_http_errors_not_retried (fun _ => 0) (fun _ => .response ⟨503, none⟩)
      (.httpError ⟨503, none⟩)).2.1 (by decide) rfl,
   (C5_http_errors_not_retried (fun _ => 0) (fun _ => .timeoutErr none)
      (.timeout none)).2.2 rfl rfl⟩

/-- C6 (amended): when the first attempt fails with a *retryable* exception
whose response carries `Retry-After: 120`, the wait before the second
attempt is the pair (120 s slept by the `before_sleep` callback, 30 s slept
by tenacity's exponential wait) — 150 s in total, in *addition to*, not
instead of, the computed backoff.  (Refutes "the total wait equals the
header-derived duration"; see `C6_counterexample`.) -/
theorem C6_retry_after_additive (d : String → Int) (o : Nat → HttpAttempt)
    (e : PyExc) (resp : PyResponse)
    (hb : fetch_page_body (o 1) = .raise e)
    (hr : retryPredicate e = true)
    (hresp : excResponse e = some resp)
    (hra : resp.retryAfter = some "120") :
    (fetch_page_run d o).waits.head? = some (120, 30) := by
  have hreq : isRequestException e = true := by
    unfold retryPredicate at hr
    exact (Bool.and_eq_true _ _).mp hr |>.1
  have hw : wait_if_retry_after d e = 120 := by
    simp only [wait_if_retry_after, hreq, hresp, hra, if_true]
    rfl
  show (fetchPageAux d o 1 4 []).waits.head? = some (120, 30)
  rw [show (4 : Nat) = 3 + 1 from rfl, fetchPageAux_retry_step hb hr]
  obtain ⟨t, h1, -, -, -⟩ := fetchPageAux_spec d o 3 2
    ([] ++ [(wait_if_retry_after d e, wait_exponential_5_30_300 1)])
  rw [h1, hw]
  rfl

/-- C6 counterexample: a retryable failure carrying `Retry-After: 120`
produces the wait pair (120, 30): 150 s elapse before the second attempt,
not the 120 s the claim asserts. -/
theorem C6_counterexample :
    (fetch_page_run (fun _ => 0)
        (fun n => if n = 1 then .connError (some ⟨503, some "120"⟩)
          else .response ⟨200, none⟩)).waits = [(120, 30)] ∧
    (120 : Int) + 30 ≠ 120 := by decide

/-- Witness for `C6_retry_after_additive` at a concrete input. -/
theorem C6_witness :
    (fetch_page_run (fun _ => 0)
        (fun n => if n = 1 then .connError (some ⟨503, some "120"⟩)
          else .response ⟨200, none⟩)).waits.head? = some (120, 30) :=
  C6_retry_after_additive (fun _ => 0)
    (fun n => if n = 1 then .connError (some ⟨503, some "120"⟩) else .response ⟨200, none⟩)
    (.connectionError (some ⟨503, some "120"⟩)) ⟨503, some "120"⟩
    (by decide) rfl rfl rfl

/-- C7 (amended): `fetch_page` makes at most 5 attempts with no wait before
the first; the computed exponential component of the wait before the k-th
retry (k = 1, 2, 3, 4) is `max(30, min(5 * 2^(k-1), 300))`, i.e. the
schedule 30 s, 30 s, 30 s, 40 s — not the doubling-from-30 schedule
30/60/120/240 of the original claim (see `C7_counterexample`). -/
theorem C7_backoff_schedule (d : String → Int) (o : Nat → HttpAttempt) :
    (fetch_page_run d o).attemptsMade ≤ 5 ∧
    (fetch_page_run d o).waits.length = (fetch_page_run d o).attemptsMade - 1 ∧
    (fetch_page_run d o).waits.map Prod.snd
      = (List.range (fetch_page_run d o).waits.length).map
          (fun k => max 30 (min (5 * 2 ^ k) 300)) := by
  obtain ⟨t, h1, h2, h3, h4⟩ := fetchPageAux_spec d o 4 1 []
  have hw : (fetch_page_run d o).waits = t := by simpa using h1
  have ha : (fetch_page_run d o).attemptsMade = 1 + t.length := h3
  refine ⟨?_, ?_, ?_⟩
  · rw [ha]
    omega
  · rw [hw, ha]
    omega
  · rw [hw, h4]
    simp only [wait_exponential_5_30_300, Nat.add_sub_cancel_left]

/-- C7 counterexample: with every attempt timing out, all 5 attempts are
made and the computed exponential waits are 30, 30, 30, 40 — with
`multiplier=5` the first doublings sit below the `min=30` floor — not the
30, 60, 120, 240 of the claim. -/
theorem C7_counterexample :
    (fetch_page_run (fun _ => 0) (fun _ => .timeoutErr none)).attemptsMade = 5 ∧
    (fetch_page_run (fun _ => 0) (fun _ => .timeoutErr none)).waits.map Prod.snd
      = [30, 30, 30, 40] ∧
    ([30, 30, 30, 40] : List Nat) ≠ [30, 60, 120, 240] := by decide

/-- C9: every URL with no `m` query parameter normalizes to the VisitedKey
`""`; once `""` is in `crawled_urls`, the crawl step discards any such URL
at pop — no fetch, no effects at all — and the followup enqueue refuses any
such link, even though the URLs may denote different logical pages. -/
theorem C9_no_m_urls_collapse (md : String → String) (fetch : String → FetchOutcome)
    (state : CrawlState) (stats : Stats) (url link : String) (rest : List String) :
    (hasQueryParamM url = false → extract_unique_part url = "") ∧
    ("" ∈ state.crawled_urls → hasQueryParamM url = false →
      state.urls_to_crawl = url :: rest →
      crawl_site_step md fetch state stats
        = ⟨{ state with urls_to_crawl := rest }, stats, [], false⟩) ∧
    ("" ∈ state.crawled_urls → hasQueryParamM link = false →
      enqueueIfNew state link = state) := by
  have key_empty : ∀ u : String, hasQueryParamM u = false → extract_unique_part u = "" := by
    intro u h
    unfold hasQueryParamM at h
    cases hf : (parse_qs (urlparse_query u)).find? (fun p => p.1 = "m") with
    | none => simp [extract_unique_part, hf]
    | some p =>
      rw [hf] at h
      simp at h
  refine ⟨key_empty url, fun h1 h2 hq => ?_, fun h1 h2 => ?_⟩
  · exact crawl_site_step_visited hq (by rw [key_empty url h2]; exact h1)
  · exact enqueueIfNew_noop (Or.inl (by rw [key_empty link h2]; exact h1))

/-- Witness for `C9_no_m_urls_collapse` at concrete inputs: the m-less seed
is discarded at pop once `""` is visited, and an m-less followup link is
never enqueued. -/
theorem C9_witness :
    extract_unique_part "http://seed.example/archive" = "" ∧
    crawl_site_step id (fun _ => .notFound)
        ⟨["http://seed.example/archive"], [""], []⟩ ⟨[], 0, []⟩
      = ⟨⟨[], [""], []⟩, ⟨[], 0, []⟩, [], false⟩ ∧
    enqueueIfNew ⟨[], [""], []⟩ "http://other.example/page" = ⟨[], [""], []⟩ :=
  ⟨(C9_no_m_urls_collapse id (fun _ => .notFound) ⟨[], [""], []⟩ ⟨[], 0, []⟩
      "http://seed.example/archive" "" []).1 (by decide),
   (C9_no_m_urls_collapse id (fun _ => .notFound)
      ⟨["http://seed.example/archive"], [""], []⟩ ⟨[], 0, []⟩
      "http://seed.example/archive" "" []).2.1 (by decide) (by decide) rfl,
   (C9_no_m_urls_collapse id (fun _ => .notFound) ⟨[], [""], []⟩ ⟨[], 0, []⟩
      "" "http://other.example/page" []).2.2 (by decide) (by decide)⟩

/-- C10: `save_dates_titles` raises whenever some record's date fails
`fromisoformat` — in particular the `""` date that `extract_posts` produces
for an article with no footer time tag (such a post also gets year
`"unknown"`).  Processing such a post makes the crawl step raise *after*
`save_stats` already persisted the stats containing the bad record
(`save_dates_titles` is never reached as a completed effect). -/
theorem C10_invalid_date_raises (md : String → String) (fetch : String → FetchOutcome)
    (state : CrawlState) (stats : Stats) (current : String) (rest : List String)
    (doc : Doc) (arts : List ArticleTag) (article : ArticleTag)
    (hq : state.urls_to_crawl = current :: rest)
    (hnv : extract_unique_part current ∉ state.crawled_urls)
    (hf : fetch current = .soup doc)
    (ht : doc.truthy = true)
    (harts : doc.contentDiv = some arts)
    (hmem : article ∈ arts)
    (hfoot : article.footerTime = none) :
    (∀ st : Stats, (∃ a ∈ st.articles, fromisoformat a.date = none) →
      save_dates_titles st = .error ()) ∧
    (∃ p ∈ extract_posts md doc, p.entry_date = "" ∧ p.year = "unknown") ∧
    (crawl_site_step md fetch state stats).raised = true ∧
    (crawl_site_step md fetch state stats).stats
        = update_stats stats (extract_posts md doc) ∧
    Effect.saveStats ∈ (crawl_site_step md fetch state stats).effects ∧
    Effect.saveDatesTitles ∉ (crawl_site_step md fetch state stats).effects := by
  have hpost : ∃ p ∈ extract_posts md doc, p.entry_date = "" ∧ p.year = "unknown" := by
    unfold extract_posts
    rw [harts]
    refine ⟨_, List.mem_map_of_mem _ hmem, ?_, ?_⟩
    · simp [hfoot]
    · simp [hfoot]
  obtain ⟨p, hp, hdate, hyear⟩ := hpost
  have harticles : (update_stats stats (extract_posts md doc)).articles
      = stats.articles ++ (extract_posts md doc).map (fun q => ⟨q.entry_date, q.title⟩) := by
    exact (foldl_statsAddPost_spec (extract_posts md doc) stats).2.1
  have herr : save_dates_titles (update_stats stats (extract_posts md doc)) = .error () := by
    apply save_dates_titles_error_of_invalid
    refine ⟨⟨p.entry_date, p.title⟩, ?_, ?_⟩
    · rw [harticles]
      exact List.mem_append_right _ (List.mem_map_of_mem _ hp)
    · show fromisoformat p.entry_date = none
      rw [hdate]
      rfl
  rw [crawl_site_step_soup_err hq hnv hf ht herr]
  refine ⟨fun st h => save_dates_titles_error_of_invalid h, ⟨p, hp, hdate, hyear⟩,
    rfl, rfl, ?_, ?_⟩
  · simp
  · simp

/-- Witness for `C10_invalid_date_raises` at a concrete input: one article
with no time tag makes the step raise after the stats were persisted. -/
theorem C10_witness :
    (crawl_site_step id
        (fun _ => .soup ⟨true, some [⟨"post-7", some "T", some "<p>x</p>", none⟩], none⟩)
        ⟨["http://s/?m=1"], [], []⟩ ⟨[], 0, []⟩).raised = true ∧
    Effect.saveStats ∈ (crawl_site_step id
        (fun _ => .soup ⟨true, some [⟨"post-7", some "T", some "<p>x</p>", none⟩], none⟩)
        ⟨["http://s/?m=1"], [], []⟩ ⟨[], 0, []⟩).effects :=
  ⟨(C10_invalid_date_raises id
      (fun _ => .soup ⟨true, some [⟨"post-7", some "T", some "<p>x</p>", none⟩], none⟩)
      ⟨["http://s/?m=1"], [], []⟩ ⟨[], 0, []⟩ "http://s/?m=1" []
      ⟨true, some [⟨"post-7", some "T", some "<p>x</p>", none⟩], none⟩
      [⟨"post-7", some "T", some "<p>x</p>", none⟩]
      ⟨"post-7", some "T", some "<p>x</p>", none⟩
      rfl (by decide) rfl rfl rfl (by decide) rfl).2.2.1,
   (C10_invalid_date_raises id
      (fun _ => .soup ⟨true, some [⟨"post-7", some "T", some "<p>x</p>", none⟩], none⟩)
      ⟨["http://s/?m=1"], [], []⟩ ⟨[], 0, []⟩ "http://s/?m=1" []
      ⟨true, some [⟨"post-7", some "T", some "<p>x</p>", none⟩], none⟩
      [⟨"post-7", some "T", some "<p>x</p>", none⟩]
      ⟨"post-7", some "T", some "<p>x</p>", none⟩
      rfl (by decide) rfl rfl rfl (by decide) rfl).2.2.2.2.1⟩
